import Mathlib

/-!
Verification of the `node-oberon` binding layer (`src/native/src/lib.rs`).

The repository exposes five functions over byte buffers: `new_keys`,
`new_blinding`, `new_token`, `blind_token` and `new_proof_timestamp`.  The
cryptographic types (`SecretKey`, `PublicKey`, `Blinding`, `Token`, `Proof`)
come from the external `oberon` crate, which the specification treats as an
external algebra library with a stated contract: fixed-length canonical
encodings whose decoders fail on invalid input, a cyclic group with total
subtraction, deterministic domain-separated hash-to-scalar functions, and a
randomized proof-of-knowledge constructor that can fail on degenerate
witnesses.  We model that collaborator concretely (a prime-order cyclic
group, represented by `ZMod 251` with one-byte canonical encodings) and embed
the binding layer faithfully: length checks return the binding's thrown
error, `.unwrap()` on a failed decode is a Rust panic, and construction
failures are mapped by `ok_or_else(|| Throw)`.
-/

set_option autoImplicit false
set_option linter.unusedVariables false

namespace NodeOberon

/-- A single byte. -/
abbrev Byte := Fin 256

/-- A byte buffer (the contents of a JS `ArrayBuffer`). -/
abbrev Bytes := List Byte

/-- Modelled from the spec: the prime order of the algebra library's scalar
field and cyclic group, instantiated with the small prime 251 so that every
definition is executable.  One-byte canonical encodings leave the values
251–255 as invalid encodings of the correct length, as required by the
collaborator contract ("scalar/element constructors from fixed-length bytes
(fail on invalid encoding)"). -/
def fieldOrder : Nat := 251

instance : NeZero fieldOrder := ⟨by norm_num [fieldOrder]⟩

/-- Modelled from the spec: scalars and group elements of the algebra
library.  A prime-order cyclic group is represented by its scalar field:
group addition/subtraction is field addition/subtraction and the generator
is `1`. -/
abbrev Scalar := ZMod fieldOrder

/-- Casting a natural number into the scalar field, reducing mod
`fieldOrder` first so the cast itself is always of a small number. -/
def natToScalar (v : Nat) : Scalar := ((v % fieldOrder : Nat) : Scalar)

/-- Big-endian bytes of width `n` for the value `v` (taken mod `256 ^ n`),
as produced by Rust's `to_be_bytes`. -/
def beBytes : Nat → Nat → Bytes
  | 0, _ => []
  | n + 1, v => ⟨v / 256 ^ n % 256, Nat.mod_lt _ (by norm_num)⟩ :: beBytes n v

/-- The value of a big-endian byte buffer. -/
def beVal (bs : Bytes) : Nat :=
  bs.foldl (fun acc b => acc * 256 + b.val) 0

/-- Modelled from the spec: the algebra library's deterministic
domain-separated hash of arbitrary-length bytes into the scalar field.
`dom` is the domain-separation tag. -/
def hashToScalar (dom : Nat) (bs : Bytes) : Scalar :=
  natToScalar (bs.foldl (fun acc b => acc * 256 + b.val) dom)

/-- `SecretKey::BYTES` of the algebra library model. -/
def SecretKey.BYTES : Nat := 1

/-- `PublicKey::BYTES` of the algebra library model. -/
def PublicKey.BYTES : Nat := 1

/-- `Blinding::BYTES` of the algebra library model. -/
def Blinding.BYTES : Nat := 1

/-- `Token::BYTES` of the algebra library model. -/
def Token.BYTES : Nat := 1

/-- Modelled from the spec: decoding a canonical fixed-width scalar/group
element encoding — fails unless the buffer has exactly the expected length
and its big-endian value is a canonical residue (`< fieldOrder`). -/
def scalarFromBytes (len : Nat) (bs : Bytes) : Option Scalar :=
  if bs.length = len ∧ beVal bs < fieldOrder then some (natToScalar (beVal bs)) else none

/-- Canonical fixed-width encoding of a scalar/group element. -/
def scalarToBytes (len : Nat) (x : Scalar) : Bytes := beBytes len x.val

/-- The issuer's private signing scalar (`oberon::SecretKey`). -/
structure SecretKey where
  s : Scalar
deriving DecidableEq

/-- The issuer's public verification element (`oberon::PublicKey`). -/
structure PublicKey where
  p : Scalar
deriving DecidableEq

/-- A blinding factor (`oberon::Blinding`). -/
structure Blinding where
  b : Scalar
deriving DecidableEq

/-- A signed, possibly blinded, credential (`oberon::Token`). -/
structure Token where
  t : Scalar
deriving DecidableEq

/-- Modelled from the spec: `SecretKey::hash` — deterministic derivation of
a secret key by hashing the seed into the scalar field. -/
def SecretKey.hash (seed : Bytes) : SecretKey := ⟨hashToScalar 1 seed⟩

/-- Modelled from the spec: `SecretKey::new(rng)` — a secret key drawn from
the supplied randomness source. -/
def SecretKey.new (rng : Scalar) : SecretKey := ⟨rng⟩

/-- The group generator of the cyclic-group model. -/
def generator : Scalar := 1

/-- Modelled from the spec: `PublicKey::from(&sk)` — the group-generator
scalar multiple of the secret key. -/
def PublicKey.from_sk (sk : SecretKey) : PublicKey := ⟨sk.s * generator⟩

/-- `SecretKey::to_bytes`. -/
def SecretKey.to_bytes (sk : SecretKey) : Bytes := scalarToBytes SecretKey.BYTES sk.s

/-- `SecretKey::from_bytes` — fails on invalid encodings. -/
def SecretKey.from_bytes (bs : Bytes) : Option SecretKey :=
  (scalarFromBytes SecretKey.BYTES bs).map SecretKey.mk

/-- `PublicKey::to_bytes`. -/
def PublicKey.to_bytes (pk : PublicKey) : Bytes := scalarToBytes PublicKey.BYTES pk.p

/-- Modelled from the spec: `Blinding::new(data)` — deterministic
domain-separated hash of arbitrary bytes into a blinding factor. -/
def Blinding.new (data : Bytes) : Blinding := ⟨hashToScalar 2 data⟩

/-- `Blinding::to_bytes`. -/
def Blinding.to_bytes (bl : Blinding) : Bytes := scalarToBytes Blinding.BYTES bl.b

/-- `Blinding::from_bytes` — fails on invalid encodings. -/
def Blinding.from_bytes (bs : Bytes) : Option Blinding :=
  (scalarFromBytes Blinding.BYTES bs).map Blinding.mk

/-- Modelled from the spec: `Token::new(&sk, id)` — a group element acting
as a signature over the identifier under the secret key (hash-to-group of
the identifier scaled by the secret key); fails on degenerate inputs that
map to the group identity (the `SigningError` case). -/
def Token.new (sk : SecretKey) (id : Bytes) : Option Token :=
  let e := sk.s * hashToScalar 3 id
  if e = 0 then none else some ⟨e⟩

/-- `Token::to_bytes`. -/
def Token.to_bytes (tok : Token) : Bytes := scalarToBytes Token.BYTES tok.t

/-- `Token::from_bytes` — fails on invalid encodings. -/
def Token.from_bytes (bs : Bytes) : Option Token :=
  (scalarFromBytes Token.BYTES bs).map Token.mk

/-- `token - blinding`: group-element subtraction, total on the types. -/
def Token.sub (tok : Token) (bl : Blinding) : Token := ⟨tok.t - bl.b⟩

/-- A zero-knowledge proof of possession (`oberon::Proof`).  The
`transcriptNonce` component records the nonce bytes bound into the
Fiat–Shamir transcript (the challenge is also computed over them). -/
structure Proof where
  commitment : Scalar
  challenge : Scalar
  response : Scalar
  transcriptNonce : Bytes
deriving DecidableEq

/-- Modelled from the spec: `Proof::new(token, blindings, id, nonce, rng)` —
a Fiat–Shamir proof of possession whose challenge is bound to the token,
the identifier and the nonce, randomized by `rng`; fails when the witness is
degenerate (the re-assembled unblinded element is the group identity), the
`ProofConstructionError` case. -/
def Proof.new (tok : Token) (blindings : List Blinding) (id nonce : Bytes)
    (rng : Scalar) : Option Proof :=
  let witness := tok.t + (blindings.map Blinding.b).sum
  if witness = 0 then none
  else
    let challenge :=
      hashToScalar 4 (Token.to_bytes tok ++ id ++ nonce ++ scalarToBytes 1 rng)
    some { commitment := rng
           challenge := challenge
           response := rng + challenge * witness
           transcriptNonce := nonce }

/-!
## The binding layer (`src/native/src/lib.rs`)

Each exported function is embedded as a pure function of its byte-buffer
arguments and an explicit `World` supplying the ambient effects the source
can reach (the `OsRng` randomness source and the system clock).  Failures in
the source are of exactly two shapes, which we keep apart:

* `Err(Throw)` — the binding deliberately signals a JavaScript exception
  (the length checks, and `ok_or_else(|| Throw)` on a failed construction);
  the source uses the single unit value `Throw` for all of these.
* a Rust panic — `.unwrap()` on a `from_bytes` decode that failed although
  the length check passed (an invalid encoding of the correct length).
-/

/-- How an embedded binding call fails. -/
inductive NeonError where
  /-- `Err(Throw)`: a JavaScript exception signalled by the binding; the
  source uses this single unit value for every deliberate failure. -/
  | Throw
  /-- A Rust panic from `.unwrap()` on a failed decode — a crash, not a
  typed catchable error. -/
  | Panic
deriving DecidableEq

/-- The ambient effects a binding call can reach: the value the `OsRng`
randomness source yields for this call and the system clock reading in
microseconds since the Unix epoch. -/
structure World where
  rng : Scalar
  timeMicros : Nat

/-- The JS object returned by `newKeys`. -/
structure KeysResult where
  secretKey : Bytes
  publicKey : Bytes
deriving DecidableEq

/-- The JS object returned by `newBlinding`. -/
structure BlindingResult where
  blinding : Bytes
deriving DecidableEq

/-- The JS object returned by `newToken` and `blindToken`. -/
structure TokenResult where
  token : Bytes
deriving DecidableEq

/-- The JS object returned by `newProofTimestamp`.  The source serializes
the proof with `to_bytes` into an `ArrayBuffer`; we keep the structured
`Proof` value (whose serialization is `Proof.to_bytes`-like and whose
`transcriptNonce` component records what was bound into the transcript). -/
structure ProofResult where
  proof : Proof
  timestamp : Bytes
deriving DecidableEq

/-- Embedding of `new_keys` (JS `newKeys`): with a seed, the secret key is
`SecretKey::hash(seed)`; without one it is `SecretKey::new(OsRng)`.  The
public key is derived from the secret key and both are serialized. -/
def new_keys (seed : Option Bytes) (w : World) : Except NeonError KeysResult :=
  let sk : SecretKey :=
    match seed with
    | some s => SecretKey.hash s
    | none => SecretKey.new w.rng
  let pk := PublicKey.from_sk sk
  Except.ok { secretKey := SecretKey.to_bytes sk, publicKey := PublicKey.to_bytes pk }

/-- Embedding of `new_blinding` (JS `newBlinding`): hashes the input bytes
into a blinding factor and serializes it; there is no failure path. -/
def new_blinding (blinding : Bytes) (w : World) : Except NeonError BlindingResult :=
  let bdata := Blinding.new blinding
  Except.ok { blinding := Blinding.to_bytes bdata }

/-- Embedding of `new_token` (JS `newToken`): length-checks the secret key
buffer (`Err(Throw)` on mismatch), then `SecretKey::from_bytes(..).unwrap()`
(a panic when the encoding is invalid), then `Token::new(&sk, id)` with
`ok_or_else(|| Throw)`. -/
def new_token (id sk_bytes : Bytes) (w : World) : Except NeonError TokenResult :=
  if sk_bytes.length ≠ SecretKey.BYTES then
    Except.error NeonError.Throw
  else
    match SecretKey.from_bytes sk_bytes with
    | none => Except.error NeonError.Panic
    | some sk =>
      match Token.new sk id with
      | none => Except.error NeonError.Throw
      | some token => Except.ok { token := Token.to_bytes token }

/-- Embedding of `blind_token` (JS `blindToken`): length-checks both buffers
in a single disjunction (`Err(Throw)` on mismatch), then decodes both with
`.unwrap()` (a panic on an invalid encoding), then returns the serialized
`token - blinding`. -/
def blind_token (token_bytes blinding_bytes : Bytes) (w : World) :
    Except NeonError TokenResult :=
  if token_bytes.length ≠ Token.BYTES ∨ blinding_bytes.length ≠ Blinding.BYTES then
    Except.error NeonError.Throw
  else
    match Token.from_bytes token_bytes with
    | none => Except.error NeonError.Panic
    | some token =>
      match Blinding.from_bytes blinding_bytes with
      | none => Except.error NeonError.Panic
      | some blinding =>
        Except.ok { token := Token.to_bytes (Token.sub token blinding) }

/-- The loop of `new_proof_timestamp` over the supplied blinding buffers:
for each element in order, a length check (`Err(Throw)` on mismatch)
followed by `Blinding::from_bytes(..).unwrap()` (a panic on an invalid
encoding of the correct length). -/
def decode_blindings : List Bytes → Except NeonError (List Blinding)
  | [] => Except.ok []
  | bs :: rest =>
    if bs.length ≠ Blinding.BYTES then
      Except.error NeonError.Throw
    else
      match Blinding.from_bytes bs with
      | none => Except.error NeonError.Panic
      | some bl => (decode_blindings rest).map (fun tl => bl :: tl)

/-- Embedding of `new_proof_timestamp` (JS `newProofTimestamp`):
length-checks the token buffer, decodes the blinding list, reads the clock
once — `SystemTime::now().duration_since(UNIX_EPOCH)` in microseconds is a
`u128`, so `to_be_bytes()` yields 16 bytes — decodes the token with
`.unwrap()`, and calls `Proof::new` with the timestamp bytes as the nonce,
returning the proof together with those same timestamp bytes. -/
def new_proof_timestamp (token_bytes id : Bytes) (blindings_vec : List Bytes)
    (w : World) : Except NeonError ProofResult :=
  if token_bytes.length ≠ Token.BYTES then
    Except.error NeonError.Throw
  else
    match decode_blindings blindings_vec with
    | Except.error e => Except.error e
    | Except.ok blindings =>
      let timestamp_bytes := beBytes 16 (w.timeMicros % 2 ^ 128)
      match Token.from_bytes token_bytes with
      | none => Except.error NeonError.Panic
      | some token =>
        match Proof.new token blindings id timestamp_bytes w.rng with
        | none => Except.error NeonError.Throw
        | some proof => Except.ok { proof := proof, timestamp := timestamp_bytes }

/-- A fixed world used for concrete evaluations: the randomness source
yields `7` and the clock reads `5` microseconds past the epoch. -/
def w0 : World := { rng := 7, timeMicros := 5 }

/-!
## Helper lemmas about the encodings and the embedded functions
-/

theorem beBytes_length (n v : Nat) : (beBytes n v).length = n := by
  induction n generalizing v with
  | zero => rfl
  | succ n ih => simp [beBytes, ih]

theorem natToScalar_val (x : Scalar) : natToScalar x.val = x := by
  unfold natToScalar
  rw [Nat.mod_eq_of_lt (ZMod.val_lt x)]
  exact ZMod.natCast_zmod_val x

theorem scalarFromBytes_toBytes (x : Scalar) :
    scalarFromBytes 1 (scalarToBytes 1 x) = some x := by
  have hlt : x.val < fieldOrder := ZMod.val_lt x
  have h256 : x.val % 256 = x.val :=
    Nat.mod_eq_of_lt (lt_trans hlt (by norm_num [fieldOrder]))
  have hval : beVal (scalarToBytes 1 x) = x.val := by
    simp [scalarToBytes, beBytes, beVal, h256]
  have hlen : (scalarToBytes 1 x).length = 1 := beBytes_length 1 x.val
  unfold scalarFromBytes
  rw [if_pos ⟨hlen, by rw [hval]; exact hlt⟩, hval, natToScalar_val]

theorem scalarFromBytes_some {L : Nat} {bs : Bytes} {x : Scalar}
    (h : scalarFromBytes L bs = some x) :
    bs.length = L ∧ beVal bs < fieldOrder ∧ x = natToScalar (beVal bs) := by
  unfold scalarFromBytes at h
  split at h
  · next hc =>
      injection h with h
      exact ⟨hc.1, hc.2, h.symm⟩
  · cases h

theorem Token.from_to_bytes (tok : Token) :
    Token.from_bytes (Token.to_bytes tok) = some tok := by
  simp [Token.from_bytes, Token.to_bytes, Token.BYTES, scalarFromBytes_toBytes]

theorem token_from_bytes_length {bs : Bytes} {tok : Token}
    (h : Token.from_bytes bs = some tok) : bs.length = Token.BYTES := by
  unfold Token.from_bytes at h
  obtain ⟨x, hx, -⟩ := Option.map_eq_some'.mp h
  exact (scalarFromBytes_some hx).1

theorem blinding_from_bytes_length {bs : Bytes} {bl : Blinding}
    (h : Blinding.from_bytes bs = some bl) : bs.length = Blinding.BYTES := by
  unfold Blinding.from_bytes at h
  obtain ⟨x, hx, -⟩ := Option.map_eq_some'.mp h
  exact (scalarFromBytes_some hx).1

/-- On decodable inputs, `blind_token` passes both length checks and both
decodes and returns the serialized group subtraction. -/
theorem blind_token_ok {token_bytes blinding_bytes : Bytes} {tok : Token}
    {bl : Blinding} (w : World)
    (ht : Token.from_bytes token_bytes = some tok)
    (hb : Blinding.from_bytes blinding_bytes = some bl) :
    blind_token token_bytes blinding_bytes w =
      Except.ok { token := Token.to_bytes (Token.sub tok bl) } := by
  have hlt : token_bytes.length = Token.BYTES := token_from_bytes_length ht
  have hlb : blinding_bytes.length = Blinding.BYTES := blinding_from_bytes_length hb
  unfold blind_token
  rw [if_neg (by push_neg; exact ⟨hlt, hlb⟩), ht, hb]

/-- The transcript nonce of a proof produced by `Proof.new` is exactly the
nonce argument. -/
theorem Proof.new_nonce {tok : Token} {bls : List Blinding} {id nonce : Bytes}
    {rng : Scalar} {p : Proof}
    (h : Proof.new tok bls id nonce rng = some p) : p.transcriptNonce = nonce := by
  simp only [Proof.new] at h
  split at h
  · cases h
  · cases h
    rfl

/-- A concrete successful run of the embedded `new_proof_timestamp` (token
`[1]`, empty identifier, no blindings, world `w0`), used for concrete
evaluations of the proof-generation theorems. -/
def proofRunResult : ProofResult :=
  match new_proof_timestamp [(1 : Byte)] [] [] w0 with
  | Except.ok r => r
  | Except.error _ => { proof := ⟨0, 0, 0, []⟩, timestamp := [] }

/-!
## The claims
-/

/-- Claim C1, counterexample: a successful call to `new_proof_timestamp`
returns a timestamp buffer of length 16, not 8 — `as_micros()` is a `u128`,
so `to_be_bytes()` yields 16 bytes, which are returned unchanged. -/
theorem C1_counterexample :
    (new_proof_timestamp [(1 : Byte)] [] [] w0).map (fun r => r.timestamp.length) =
      Except.ok 16 ∧ (16 : Nat) ≠ 8 :=
  ⟨rfl, by decide⟩

/-- Claim C1, as amended: the timestamp returned by `new_proof_timestamp`
is the 16-byte big-endian unsigned (`u128`) microsecond timestamp: for every
successful call, the returned timestamp buffer is the big-endian encoding of
the clock reading and has length exactly 16. -/
theorem C1_amended_timestamp_is_16_byte_be (token_bytes id : Bytes)
    (blindings_vec : List Bytes) (w : World) (out : ProofResult)
    (h : new_proof_timestamp token_bytes id blindings_vec w = Except.ok out) :
    out.timestamp = beBytes 16 (w.timeMicros % 2 ^ 128) ∧
      out.timestamp.length = 16 := by
  simp only [new_proof_timestamp] at h
  split at h
  · cases h
  · split at h
    · cases h
    · split at h
      · cases h
      · split at h
        · cases h
        · cases h
          exact ⟨rfl, beBytes_length 16 _⟩

/-- Witness for the amended claim C1 at a concrete successful call. -/
theorem C1_witness :
    new_proof_timestamp [(1 : Byte)] [] [] w0 = Except.ok proofRunResult ∧
      proofRunResult.timestamp = beBytes 16 (w0.timeMicros % 2 ^ 128) ∧
        proofRunResult.timestamp.length = 16 :=
  ⟨rfl, C1_amended_timestamp_is_16_byte_be [(1 : Byte)] [] [] w0 proofRunResult (by rfl)⟩

/-- Claim C2, code-bug evidence: the binding signals a length-validation
failure of `new_token` (first conjunct) and a construction failure of
`Token::new` (second conjunct, the zero secret key) with the very same
untyped `Throw` value, so the two kinds cannot be distinguished; and a
decode failure on a correct-length but invalid encoding (third conjunct) is
a Rust panic, not a typed catchable error at all. -/
theorem C2_failures_not_distinguished :
    new_token [] [] w0 = Except.error NeonError.Throw ∧
      new_token [] [(0 : Byte)] w0 = Except.error NeonError.Throw ∧
        new_token [] [(255 : Byte)] w0 = Except.error NeonError.Panic :=
  ⟨rfl, rfl, rfl⟩

/-- Claim C3, code-bug evidence: a secret-key buffer of the correct length
`SecretKey::BYTES` whose value is not a canonical scalar makes `new_token`
panic (`from_bytes(..).unwrap()`), a crash rather than a `ValidationError`;
a buffer of wrong length does fail with the binding's thrown error. -/
theorem C3_invalid_scalar_panics :
    (([(255 : Byte)] : Bytes).length = SecretKey.BYTES ∧
      new_token [] [(255 : Byte)] w0 = Except.error NeonError.Panic) ∧
      new_token [] [] w0 = Except.error NeonError.Throw :=
  ⟨⟨by decide, rfl⟩, rfl⟩

/-- Claim C4, counterexample: a token buffer of length exactly
`Token::BYTES` whose value is not a valid group-element encoding makes
`blind_token` panic instead of returning a new token, so `blind_token` is
not total on all correct-length buffers. -/
theorem C4_counterexample :
    (([(255 : Byte)] : Bytes).length = Token.BYTES ∧
      ([(0 : Byte)] : Bytes).length = Blinding.BYTES) ∧
      blind_token [(255 : Byte)] [(0 : Byte)] w0 = Except.error NeonError.Panic :=
  ⟨⟨by decide, by decide⟩, rfl⟩

/-- Claim C4, as amended: `blind_token` is total on decodable inputs — for
every token buffer that decodes to a valid `Token` and every blinding buffer
that decodes to a valid `Blinding` (which in particular forces the lengths
`Token::BYTES` and `Blinding::BYTES`), `blind_token` returns a new token;
the group subtraction itself is always defined. -/
theorem C4_amended_total_on_decodable (token_bytes blinding_bytes : Bytes)
    (w : World)
    (ht : (Token.from_bytes token_bytes).isSome = true)
    (hb : (Blinding.from_bytes blinding_bytes).isSome = true) :
    ∃ out, blind_token token_bytes blinding_bytes w = Except.ok out := by
  obtain ⟨tok, htok⟩ := Option.isSome_iff_exists.mp ht
  obtain ⟨bl, hbl⟩ := Option.isSome_iff_exists.mp hb
  exact ⟨_, blind_token_ok w htok hbl⟩

/-- Witness for the amended claim C4 at a concrete decodable input. -/
theorem C4_witness :
    ((Token.from_bytes [(5 : Byte)]).isSome = true ∧
      (Blinding.from_bytes [(3 : Byte)]).isSome = true) ∧
      ∃ out, blind_token [(5 : Byte)] [(3 : Byte)] w0 = Except.ok out :=
  ⟨⟨rfl, rfl⟩, C4_amended_total_on_decodable _ _ w0 rfl rfl⟩

/-- Claim C5 (confirmed): whenever the token buffer's length differs from
`Token::BYTES` or the blinding buffer's length differs from
`Blinding::BYTES` — each position independently of the other buffer —
`blind_token` fails with the binding's thrown validation error, before any
decoding or cryptographic computation. -/
theorem C5_wrong_length_throws (token_bytes blinding_bytes : Bytes) (w : World)
    (h : token_bytes.length ≠ Token.BYTES ∨ blinding_bytes.length ≠ Blinding.BYTES) :
    blind_token token_bytes blinding_bytes w = Except.error NeonError.Throw := by
  unfold blind_token
  rw [if_pos h]

/-- Witness for claim C5: both positions, each with the other buffer
well-formed. -/
theorem C5_witness :
    ((([] : Bytes).length ≠ Token.BYTES ∨
        ([(3 : Byte)] : Bytes).length ≠ Blinding.BYTES) ∧
      blind_token [] [(3 : Byte)] w0 = Except.error NeonError.Throw) ∧
      ((([(5 : Byte)] : Bytes).length ≠ Token.BYTES ∨
          ([] : Bytes).length ≠ Blinding.BYTES) ∧
        blind_token [(5 : Byte)] [] w0 = Except.error NeonError.Throw) :=
  ⟨⟨Or.inl (by decide), C5_wrong_length_throws [] [(3 : Byte)] w0 (Or.inl (by decide))⟩,
    ⟨Or.inr (by decide), C5_wrong_length_throws [(5 : Byte)] [] w0 (Or.inr (by decide))⟩⟩

/-- Claim C6 (confirmed): blinding is order-independent — for every
decodable token and every pair of decodable blindings, applying the two
blindings through `blind_token` in either order yields identical results
(group subtraction commutes under addition of the subtracted values). -/
theorem C6_blinding_order_independent (t b1 b2 : Bytes) (w : World)
    (ht : (Token.from_bytes t).isSome = true)
    (hb1 : (Blinding.from_bytes b1).isSome = true)
    (hb2 : (Blinding.from_bytes b2).isSome = true) :
    (blind_token t b1 w).bind (fun r => blind_token r.token b2 w) =
      (blind_token t b2 w).bind (fun r => blind_token r.token b1 w) := by
  obtain ⟨tok, htok⟩ := Option.isSome_iff_exists.mp ht
  obtain ⟨x1, h1⟩ := Option.isSome_iff_exists.mp hb1
  obtain ⟨x2, h2⟩ := Option.isSome_iff_exists.mp hb2
  rw [blind_token_ok w htok h1, blind_token_ok w htok h2]
  show blind_token (Token.to_bytes (Token.sub tok x1)) b2 w =
    blind_token (Token.to_bytes (Token.sub tok x2)) b1 w
  rw [blind_token_ok w (Token.from_to_bytes (Token.sub tok x1)) h2,
    blind_token_ok w (Token.from_to_bytes (Token.sub tok x2)) h1]
  have hsub : Token.sub (Token.sub tok x1) x2 = Token.sub (Token.sub tok x2) x1 := by
    unfold Token.sub
    rw [sub_sub, sub_sub, add_comm]
  rw [hsub]

/-- Witness for claim C6 at concrete decodable inputs. -/
theorem C6_witness :
    ((Token.from_bytes [(9 : Byte)]).isSome = true ∧
      (Blinding.from_bytes [(2 : Byte)]).isSome = true ∧
        (Blinding.from_bytes [(3 : Byte)]).isSome = true) ∧
      (blind_token [(9 : Byte)] [(2 : Byte)] w0).bind
          (fun r => blind_token r.token [(3 : Byte)] w0) =
        (blind_token [(9 : Byte)] [(3 : Byte)] w0).bind
          (fun r => blind_token r.token [(2 : Byte)] w0) :=
  ⟨⟨rfl, rfl, rfl⟩, C6_blinding_order_independent _ _ _ w0 rfl rfl rfl⟩

/-- Claim C7 (confirmed): seeded key generation is deterministic — the
seeded branch of `new_keys` never consults the ambient randomness source or
clock, so two invocations with the identical seed yield identical
secret-key and public-key byte outputs whatever the ambient world is. -/
theorem C7_seeded_keys_deterministic (s : Bytes) (w1 w2 : World) :
    new_keys (some s) w1 = new_keys (some s) w2 := rfl

/-- Claim C8, code-bug evidence: a token buffer of wrong length fails with
the thrown validation error (first conjunct); a wrong-length blinding in
first position fails with the thrown validation error (second conjunct); an
empty blinding list passes validation and the call succeeds (third
conjunct); but a blinding list whose second entry has the wrong length while
the first entry is a correct-length invalid encoding makes the call panic at
the first entry's `unwrap()` before the second entry is ever
length-validated (fourth conjunct) — a crash where the claim requires a
`ValidationError`. -/
theorem C8_length_validation_evaluation :
    new_proof_timestamp [] [] [] w0 = Except.error NeonError.Throw ∧
      new_proof_timestamp [(1 : Byte)] [] [[], [(2 : Byte)]] w0 =
          Except.error NeonError.Throw ∧
        (new_proof_timestamp [(1 : Byte)] [] [] w0).isOk = true ∧
          new_proof_timestamp [(1 : Byte)] [] [[(255 : Byte)], []] w0 =
            Except.error NeonError.Panic :=
  ⟨rfl, rfl, rfl, rfl⟩

/-- Claim C9 (confirmed): `new_blinding` is deterministic and never fails —
for every input buffer, of any length including the empty buffer, the call
ignores the ambient world (no randomness, no state) and succeeds with the
serialized domain-separated hash of the input. -/
theorem C9_new_blinding_total_deterministic (b : Bytes) (w1 w2 : World) :
    new_blinding b w1 = new_blinding b w2 ∧
      new_blinding b w1 =
        Except.ok { blinding := Blinding.to_bytes (Blinding.new b) } :=
  ⟨rfl, rfl⟩

/-- Claim C10 (confirmed): for every successful call to
`new_proof_timestamp`, the timestamp buffer returned to the caller is
byte-for-byte the nonce that was bound into the proof transcript handed to
`Proof::new`. -/
theorem C10_timestamp_equals_transcript_nonce (token_bytes id : Bytes)
    (blindings_vec : List Bytes) (w : World) (out : ProofResult)
    (h : new_proof_timestamp token_bytes id blindings_vec w = Except.ok out) :
    out.timestamp = out.proof.transcriptNonce := by
  simp only [new_proof_timestamp] at h
  split at h
  · cases h
  · split at h
    · cases h
    · split at h
      · cases h
      · split at h
        · cases h
        · next proof hp =>
            cases h
            exact (Proof.new_nonce hp).symm

/-- Witness for claim C10 at a concrete successful call. -/
theorem C10_witness :
    new_proof_timestamp [(1 : Byte)] [] [] w0 = Except.ok proofRunResult ∧
      proofRunResult.timestamp = proofRunResult.proof.transcriptNonce :=
  ⟨rfl, C10_timestamp_equals_transcript_nonce [(1 : Byte)] [] [] w0 proofRunResult (by rfl)⟩

end NodeOberon
